import Mathlib

/-!
Verification of the client-side catalog engine of the toolbox repository:
the Schema Adapter, the Catalog Store Client, the Migration Guard, the
Reactive Catalog Cache and the derived tag list, shallowly embedded from
the TypeScript sources (src/types/card.ts, src/services/cardService.ts,
src/hooks/useCards.ts, src/components/CardFormModal.tsx).
-/

namespace Toolbox

/-! ## Data model (src/types/card.ts)

The TypeScript union types (`CardClassification`, `CardDifficulty`,
`CardLanguage`) are erased at runtime and the service layer casts the raw
database strings into them without validation, so they are embedded as
`String`.  An optional TypeScript field (`field?: T`) is embedded as
`Option T` with `none` standing for `undefined`. -/

/-- Structure `Method` from src/types/card.ts: a named data-structure operation with
its own time complexity. -/
structure Method where
  name : String
  timeComplexity : String
deriving DecidableEq, Repr

/-- Structure `Card` from src/types/card.ts: the internal item model. -/
structure Card where
  id : String
  title : String
  classification : String
  difficulty : Option String
  code : String
  explanation : String
  timeComplexity : Option String
  spaceComplexity : Option String
  methods : Option (List Method)
  tags : List String
  useCases : Option (List String)
  relatedProblems : Option (List String)
  dateAdded : Option String
  language : Option String
deriving DecidableEq, Repr

/-- The snake_case shape of a method as persisted (`methods` column
entries in the `DatabaseCard` schema type of cardService.ts). -/
structure DbMethod where
  name : String
  time_complexity : String
deriving DecidableEq, Repr

/-- Structure `DatabaseCard` from cardService.ts: the external persisted record
shape.  A nullable column (`T | null`) is embedded as `Option T` with
`none` standing for `null`. -/
structure DatabaseCard where
  id : String
  title : String
  classification : String
  difficulty : Option String
  code : String
  explanation : String
  time_complexity : Option String
  space_complexity : Option String
  methods : Option (List DbMethod)
  tags : List String
  use_cases : Option (List String)
  related_problems : Option (List String)
  date_added : Option String
  language : Option String
  created_at : String
  updated_at : String
deriving DecidableEq, Repr

/-- The outbound insert payload shape, `DatabaseCard` without its id,
created_at and updated_at columns: the payload produced by `cardToDb` (identifier and timestamps are
store-assigned and not part of the payload). -/
structure DatabaseCardInsert where
  title : String
  classification : String
  difficulty : Option String
  code : String
  explanation : String
  time_complexity : Option String
  space_complexity : Option String
  methods : Option (List DbMethod)
  tags : List String
  use_cases : Option (List String)
  related_problems : Option (List String)
  date_added : Option String
  language : Option String
deriving DecidableEq, Repr

/-! ## Schema Adapter (cardService.ts, `dbToCard` / `cardToDb`)

JavaScript `x || undefined` and `x || null` on a nullable string collapse
both `null`/`undefined` and the falsy empty string to the absent value;
on an array they are the identity (arrays, even empty ones, are truthy).
`jsStrOrNone` embeds the string case. -/

/-- JavaScript `s || undefined` (equally `s || null`) on a value of type
`string | null | undefined`: `null`, `undefined` and `""` all become the
absent value. -/
def jsStrOrNone : Option String → Option String
  | none => none
  | some s => if s = "" then none else some s

/-- Mapping of a persisted method entry to `Method` inside `dbToCard`. -/
def dbMethodToMethod (m : DbMethod) : Method :=
  { name := m.name, timeComplexity := m.time_complexity }

/-- Mapping of a `Method` to its persisted shape inside `cardToDb`. -/
def methodToDb (m : Method) : DbMethod :=
  { name := m.name, time_complexity := m.timeComplexity }

/-- Function `dbToCard` from cardService.ts: transform a database record into the
internal `Card` model. -/
def dbToCard (d : DatabaseCard) : Card :=
  { id := d.id
    title := d.title
    classification := d.classification
    difficulty := jsStrOrNone d.difficulty
    code := d.code
    explanation := d.explanation
    timeComplexity := jsStrOrNone d.time_complexity
    spaceComplexity := jsStrOrNone d.space_complexity
    methods := d.methods.map (List.map dbMethodToMethod)
    tags := d.tags
    useCases := d.use_cases
    relatedProblems := d.related_problems
    dateAdded := jsStrOrNone d.date_added
    language := jsStrOrNone d.language }

/-- Function `cardToDb` from cardService.ts: transform a `Card` (without its
store-assigned fields) into the outbound database payload. -/
def cardToDb (card : Card) : DatabaseCardInsert :=
  { title := card.title
    classification := card.classification
    difficulty := jsStrOrNone card.difficulty
    code := card.code
    explanation := card.explanation
    time_complexity := jsStrOrNone card.timeComplexity
    space_complexity := jsStrOrNone card.spaceComplexity
    methods := card.methods.map (List.map methodToDb)
    tags := card.tags
    use_cases := card.useCases
    related_problems := card.relatedProblems
    date_added := jsStrOrNone card.dateAdded
    language := jsStrOrNone card.language }

/-- Completion by the store of an insert payload into a full record: the
store assigns the identifier and the two timestamps, every other column
comes from the payload. -/
def withStoreFields (ins : DatabaseCardInsert) (i created updated : String) :
    DatabaseCard :=
  { id := i
    title := ins.title
    classification := ins.classification
    difficulty := ins.difficulty
    code := ins.code
    explanation := ins.explanation
    time_complexity := ins.time_complexity
    space_complexity := ins.space_complexity
    methods := ins.methods
    tags := ins.tags
    use_cases := ins.use_cases
    related_problems := ins.related_problems
    date_added := ins.date_added
    language := ins.language
    created_at := created
    updated_at := updated }

/-- A valid internal item: optional string fields are absent rather than
the empty string (per the spec, optional external null fields map to
internal absent — not null, not the empty string). -/
def validCard (x : Card) : Prop :=
  x.difficulty ≠ some "" ∧ x.timeComplexity ≠ some "" ∧
    x.spaceComplexity ≠ some "" ∧ x.dateAdded ≠ some "" ∧
    x.language ≠ some ""

instance (x : Card) : Decidable (validCard x) := by
  unfold validCard; infer_instance

theorem jsStrOrNone_eq_self {o : Option String} (h : o ≠ some "") :
    jsStrOrNone o = o := by
  match o with
  | none => rfl
  | some s =>
    simp only [jsStrOrNone, ite_eq_right_iff]
    intro hs
    exact absurd (by rw [hs]) h

theorem dbMethod_round_trip (ms : List Method) :
    (ms.map methodToDb).map dbMethodToMethod = ms := by
  induction ms with
  | nil => rfl
  | cons m rest ih =>
    cases m
    simp [methodToDb, dbMethodToMethod, ih]

theorem jsStrOrNone_double {o : Option String} (h : o ≠ some "") :
    jsStrOrNone (jsStrOrNone o) = o := by
  rw [jsStrOrNone_eq_self h, jsStrOrNone_eq_self h]

theorem methodsOption_round_trip (ms : Option (List Method)) :
    Option.map (List.map (dbMethodToMethod ∘ methodToDb)) ms = ms := by
  cases ms with
  | none => rfl
  | some l => simpa [← List.map_map] using congrArg some (dbMethod_round_trip l)

/-- C2: For every valid internal item (optional fields absent rather than
empty strings), the Schema Adapter round-trips: `dbToCard` applied to the
completion by the store of `cardToDb x` agrees with `x` on every field except
the store-assigned identifier (`Card` itself carries no creation
timestamp; `dateAdded` is part of the outbound payload and round-trips). -/
theorem adapter_round_trip (x : Card) (i created updated : String)
    (h : validCard x) :
    dbToCard (withStoreFields (cardToDb x) i created updated) =
      { x with id := i } := by
  obtain ⟨h1, h2, h3, h4, h5⟩ := h
  cases x
  simp [dbToCard, cardToDb, withStoreFields, Card.mk.injEq,
        jsStrOrNone_double h1, jsStrOrNone_double h2, jsStrOrNone_double h3,
        jsStrOrNone_double h4, jsStrOrNone_double h5, methodsOption_round_trip]

/-- Witness for C2 at a concrete valid card. -/
theorem adapter_round_trip_witness :
    validCard
        { id := "old", title := "Binary Search", classification := "searches",
          difficulty := some "easy", code := "def bs(): pass",
          explanation := "halve the range", timeComplexity := some "O(log n)",
          spaceComplexity := some "O(1)",
          methods := none, tags := ["array", "search"],
          useCases := some ["sorted lookup"], relatedProblems := none,
          dateAdded := none, language := some "python" } ∧
      dbToCard (withStoreFields (cardToDb
        { id := "old", title := "Binary Search", classification := "searches",
          difficulty := some "easy", code := "def bs(): pass",
          explanation := "halve the range", timeComplexity := some "O(log n)",
          spaceComplexity := some "O(1)",
          methods := none, tags := ["array", "search"],
          useCases := some ["sorted lookup"], relatedProblems := none,
          dateAdded := none, language := some "python" }) "fresh" "t1" "t2") =
      { id := "fresh", title := "Binary Search", classification := "searches",
        difficulty := some "easy", code := "def bs(): pass",
        explanation := "halve the range", timeComplexity := some "O(log n)",
        spaceComplexity := some "O(1)",
        methods := none, tags := ["array", "search"],
        useCases := some ["sorted lookup"], relatedProblems := none,
        dateAdded := none, language := some "python" } :=
  ⟨by decide, adapter_round_trip _ "fresh" "t1" "t2" (by decide)⟩

/-! ## Catalog Store Client (cardService.ts)

The supabase client hands the service code a destructured
`{ data, error }` response; the service sees nothing else, so each
operation is embedded as a function of that response.  The remote store
itself is an external collaborator: its ordered select, filtered delete
and partial update are modelled from the remote-store boundary of the
spec (section 6). -/

/-- Comparator of the remote `order(created_at, ascending false)` clause:
`a` comes before `b` when the creation timestamp of `a` is at least
that of `b` (newest first). -/
def createdDesc (a b : DatabaseCard) : Prop :=
  b.created_at ≤ a.created_at

instance : DecidableRel createdDesc := fun a b =>
  inferInstanceAs (Decidable (b.created_at ≤ a.created_at))

instance : IsTotal DatabaseCard createdDesc :=
  ⟨fun a b => le_total b.created_at a.created_at⟩

instance : IsTrans DatabaseCard createdDesc :=
  ⟨fun _ _ _ hab hbc => le_trans hbc hab⟩

/-- Modelled from the spec: the remote store boundary supports
filtered/ordered select; `select.order(created_at, ascending false)`
returns the stored records sorted newest-first. -/
def sbSelectCreatedDesc (store : List DatabaseCard) : List DatabaseCard :=
  List.insertionSort createdDesc store

/-- The destructured `{ data, error }` of a supabase list query. -/
structure SbListResponse where
  data : Option (List DatabaseCard)
  error : Option String
deriving DecidableEq, Repr

/-- Function `getAllCards` from cardService.ts: throw on a reported error,
otherwise map the rows through the Schema Adapter. -/
def getAllCards (resp : SbListResponse) : Except String (List Card) :=
  match resp.error with
  | some e => .error ("Failed to fetch cards: " ++ e)
  | none => .ok ((resp.data.getD []).map dbToCard)

/-- Run of `getAllCards` against a well-behaved remote store. -/
def getAllCardsFrom (store : List DatabaseCard) : Except String (List Card) :=
  getAllCards { data := some (sbSelectCreatedDesc store), error := none }

/-- Function `deleteCard` from cardService.ts: the only thing the code
inspects is the `error` field of the builder response. -/
def deleteCard (error : Option String) : Except String Unit :=
  match error with
  | some e => .error ("Failed to delete card: " ++ e)
  | none => .ok ()

/-- Modelled from the spec: delete by identifier at the remote store
boundary removes every record matching the filter; matching zero rows
is not a store failure, and `deleteCard` chains no zero-row check (no
`.single()`, unlike `updateCard`), so the builder reports no error. -/
def sbDeleteEq (store : List DatabaseCard) (i : String) :
    List DatabaseCard × Option String :=
  (store.filter (fun r => r.id ≠ i), none)

/-- Run of `deleteCard` against a well-behaved remote store. -/
def deleteCardRun (store : List DatabaseCard) (i : String) :
    Except String Unit × List DatabaseCard :=
  (deleteCard (sbDeleteEq store i).2, (sbDeleteEq store i).1)

/-- The argument of `updateCard`: a partial card without its identifier;
`none` stands for an omitted (`undefined`) field. -/
structure CardUpdates where
  title : Option String
  classification : Option String
  difficulty : Option String
  code : Option String
  explanation : Option String
  timeComplexity : Option String
  spaceComplexity : Option String
  methods : Option (List Method)
  tags : Option (List String)
  useCases : Option (List String)
  relatedProblems : Option (List String)
  dateAdded : Option String
  language : Option String
deriving DecidableEq, Repr

/-- The outbound update payload `updateData`, a partial database record;
the outer `Option` is key presence, the inner `Option` (on nullable
columns) is the explicit `null` value. -/
structure DatabaseCardUpdate where
  title : Option String
  classification : Option String
  difficulty : Option (Option String)
  code : Option String
  explanation : Option String
  time_complexity : Option (Option String)
  space_complexity : Option (Option String)
  methods : Option (Option (List DbMethod))
  tags : Option (List String)
  use_cases : Option (Option (List String))
  related_problems : Option (Option (List String))
  date_added : Option (Option String)
  language : Option (Option String)
deriving DecidableEq, Repr

/-- The payload `updateData` starts as the empty object literal. -/
def emptyUpdate : DatabaseCardUpdate :=
  ⟨none, none, none, none, none, none, none, none, none, none, none, none,
    none⟩

/-- The `updateData` construction of `updateCard` in cardService.ts: a
field enters the payload exactly when the corresponding update field is
not `undefined`; nullable string columns go through `value || null`
(collapsing the empty string to `null`), a supplied methods list is
always truthy and maps to its snake_case shape, supplied arrays are kept
as-is. -/
def updateCardPayload (u : CardUpdates) : DatabaseCardUpdate :=
  { title := u.title
    classification := u.classification
    difficulty := u.difficulty.map (fun s => jsStrOrNone (some s))
    code := u.code
    explanation := u.explanation
    time_complexity := u.timeComplexity.map (fun s => jsStrOrNone (some s))
    space_complexity := u.spaceComplexity.map (fun s => jsStrOrNone (some s))
    methods := u.methods.map (fun ms => some (ms.map methodToDb))
    tags := u.tags
    use_cases := u.useCases.map some
    related_problems := u.relatedProblems.map some
    date_added := u.dateAdded.map (fun s => jsStrOrNone (some s))
    language := u.language.map (fun s => jsStrOrNone (some s)) }

/-- Modelled from the spec: partial update by identifier at the remote
store boundary — a column present in the payload replaces the stored value,
an absent column is untouched; identifier and creation timestamp are
never part of the payload. -/
def applyUpdatePayload (p : DatabaseCardUpdate) (r : DatabaseCard) :
    DatabaseCard :=
  { id := r.id
    title := p.title.getD r.title
    classification := p.classification.getD r.classification
    difficulty := p.difficulty.getD r.difficulty
    code := p.code.getD r.code
    explanation := p.explanation.getD r.explanation
    time_complexity := p.time_complexity.getD r.time_complexity
    space_complexity := p.space_complexity.getD r.space_complexity
    methods := p.methods.getD r.methods
    tags := p.tags.getD r.tags
    use_cases := p.use_cases.getD r.use_cases
    related_problems := p.related_problems.getD r.related_problems
    date_added := p.date_added.getD r.date_added
    language := p.language.getD r.language
    created_at := r.created_at
    updated_at := r.updated_at }

/-- Modelled from the spec: `update.eq(id, i)` applies the payload to
every record whose identifier matches. -/
def sbUpdateEq (store : List DatabaseCard) (i : String)
    (p : DatabaseCardUpdate) : List DatabaseCard :=
  store.map (fun r => if r.id = i then applyUpdatePayload p r else r)

/-- The `updateCard(id, difficulty hard)` argument of the concrete
scenario in the spec: every other field omitted. -/
def difficultyHardOnly : CardUpdates :=
  ⟨none, none, some "hard", none, none, none, none, none, none, none, none,
    none, none⟩

/-- A concrete stored record used by the closed counterexamples. -/
def sampleDb : DatabaseCard :=
  { id := "1", title := "Binary Search", classification := "searches",
    difficulty := some "easy", code := "def bs(): pass",
    explanation := "halve the range", time_complexity := some "O(log n)",
    space_complexity := some "O(1)", methods := none,
    tags := ["array", "search"], use_cases := none,
    related_problems := none, date_added := none,
    language := some "python", created_at := "2024-01-01T00:00:00Z",
    updated_at := "2024-01-01T00:00:00Z" }

/-- C3: `getAllCards` against a healthy remote returns the catalog
sorted by creation time descending (a permutation of the store, mapped
through the Schema Adapter), and whenever the remote reports an error it
throws instead of returning a collection — in particular it never
answers an error with the empty list. -/
theorem getAllCards_ordered_or_throws :
    (∀ store : List DatabaseCard,
        getAllCardsFrom store =
            Except.ok ((sbSelectCreatedDesc store).map dbToCard) ∧
          List.Sorted createdDesc (sbSelectCreatedDesc store) ∧
          (sbSelectCreatedDesc store).Perm store) ∧
      ∀ (d : Option (List DatabaseCard)) (e : String),
        getAllCards { data := d, error := some e } =
          Except.error ("Failed to fetch cards: " ++ e) :=
  ⟨fun store =>
      ⟨rfl, List.sorted_insertionSort createdDesc store,
        List.perm_insertionSort createdDesc store⟩,
    fun _ _ => rfl⟩

/-- C6 counterexample: deleting an identifier that is not in the store
(the store holds only the record with id 1) is a silent success — the
filtered delete matches zero rows, reports no error, and `deleteCard`
resolves with no NotFound failure, leaving the store unchanged. -/
theorem deleteCard_missing_id_silent :
    deleteCardRun [sampleDb] "missing" = (Except.ok (), [sampleDb]) := by
  simp [deleteCardRun, sbDeleteEq, deleteCard, sampleDb]

/-- C6 amended: `deleteCard` rejects nothing on its own — against a
healthy remote it always succeeds, deleting exactly the matching rows
(zero rows for a non-existent identifier), and it fails only when the
remote itself reports an error. -/
theorem deleteCard_no_notFound :
    (∀ (store : List DatabaseCard) (i : String),
        deleteCardRun store i =
          (Except.ok (), store.filter (fun r => r.id ≠ i))) ∧
      ∀ e : String,
        deleteCard (some e) = Except.error ("Failed to delete card: " ++ e) :=
  ⟨fun _ _ => rfl, fun _ => rfl⟩

/-- C5: only the supplied fields of an `updateCard` call enter the
outbound payload (field-by-field, the payload key is present exactly when
the update field is supplied); in the concrete scenario, the
`updateCard(id, difficulty hard)` payload carries only the difficulty
column, and applying it server-side changes the difficulty of a record
to hard and nothing else, so a subsequent fetch maps the record to the same
card with difficulty hard. -/
theorem updateCard_only_supplied_fields :
    (∀ u : CardUpdates,
        (updateCardPayload u).title.isSome = u.title.isSome ∧
          (updateCardPayload u).classification.isSome =
            u.classification.isSome ∧
          (updateCardPayload u).difficulty.isSome = u.difficulty.isSome ∧
          (updateCardPayload u).code.isSome = u.code.isSome ∧
          (updateCardPayload u).explanation.isSome = u.explanation.isSome ∧
          (updateCardPayload u).time_complexity.isSome =
            u.timeComplexity.isSome ∧
          (updateCardPayload u).space_complexity.isSome =
            u.spaceComplexity.isSome ∧
          (updateCardPayload u).methods.isSome = u.methods.isSome ∧
          (updateCardPayload u).tags.isSome = u.tags.isSome ∧
          (updateCardPayload u).use_cases.isSome = u.useCases.isSome ∧
          (updateCardPayload u).related_problems.isSome =
            u.relatedProblems.isSome ∧
          (updateCardPayload u).date_added.isSome = u.dateAdded.isSome ∧
          (updateCardPayload u).language.isSome = u.language.isSome) ∧
      updateCardPayload difficultyHardOnly =
        { emptyUpdate with difficulty := some (some "hard") } ∧
      ∀ r : DatabaseCard,
        applyUpdatePayload (updateCardPayload difficultyHardOnly) r =
            { r with difficulty := some "hard" } ∧
          dbToCard (applyUpdatePayload (updateCardPayload difficultyHardOnly)
              r) =
            { dbToCard r with difficulty := some "hard" } := by
  refine ⟨fun u => ?_, by decide, fun r => ⟨?_, ?_⟩⟩
  · simp [updateCardPayload, Option.isSome_map]
  · cases r
    simp [updateCardPayload, applyUpdatePayload, difficultyHardOnly,
      emptyUpdate, jsStrOrNone]
  · cases r
    simp [updateCardPayload, applyUpdatePayload, difficultyHardOnly,
      emptyUpdate, dbToCard, jsStrOrNone]

/-! ## Migration Guard (cardService.ts, `migrateHardcodedCards`)

The guard touches three pieces of external state: the durable marker
(localStorage key `toolbox_cards_migrated`), the remote table, and the
remote insert endpoint.  They are gathered in `MigState`; the two remote
calls can independently fail, gathered in `MigEnv` (the probe error is
destructured away by the code, so only its presence matters; the insert
error carries the remote message).  The bundled seed `allCards` lives in
src/data/cards.ts, which is not in the pack, so the seed is a parameter,
as is the assignment of identifier and timestamps that the store
performs on inserted rows. -/

structure MigEnv where
  probeErr : Bool
  insertErr : Option String
deriving DecidableEq, Repr

structure MigState where
  marker : Bool
  store : List DatabaseCard
  insertCalls : Nat
deriving DecidableEq, Repr

/-- Function `hasMigrationRun` from cardService.ts: the durable marker reads
true. -/
def hasMigrationRun (s : MigState) : Bool := s.marker

/-- Function `setMigrationComplete` from cardService.ts: set the durable
marker. -/
def setMigrationComplete (s : MigState) : MigState := { s with marker := true }

/-- The bulk-insert leg of `migrateHardcodedCards` (lines 166-179):
transform the whole seed through the Schema Adapter, issue one bulk
insert, and on success set the marker; on a reported error throw and
leave the marker unset. -/
def migrateInsert (seed : List Card) (insertErr : Option String)
    (assignRow : DatabaseCardInsert → DatabaseCard) (s : MigState) :
    MigState × Option String :=
  let cardsToInsert := seed.map cardToDb
  let s1 := { s with insertCalls := s.insertCalls + 1 }
  match insertErr with
  | some m => (s1, some ("Failed to migrate cards: " ++ m))
  | none =>
      (setMigrationComplete
        { s1 with store := s1.store ++ cardsToInsert.map assignRow }, none)

/-- Function `migrateHardcodedCards` from cardService.ts: return if the marker is
set; probe the store with `select id, limit 1` (discarding any probe
error, so an erroring probe looks like absent data); skip and set the
marker when the probe reports a row; otherwise bulk-insert the seed.
The second component is the thrown message, `none` when the call
returns normally. -/
def migrateHardcodedCards (seed : List Card) (env : MigEnv)
    (assignRow : DatabaseCardInsert → DatabaseCard) (s : MigState) :
    MigState × Option String :=
  if hasMigrationRun s then (s, none)
  else
    let existingCards : Option (List String) :=
      if env.probeErr then none
      else some ((s.store.map (fun r => r.id)).take 1)
    match existingCards with
    | some ids =>
        if 0 < ids.length then (setMigrationComplete s, none)
        else migrateInsert seed env.insertErr assignRow s
    | none => migrateInsert seed env.insertErr assignRow s

/-! ## Reactive Catalog Cache (useCards.ts)

`cards`, `loading` and `error` are the three state cells of the hook;
the `mounted` session-alive flag lives in the effect closure and is
passed explicitly to each completion.  Each completion of an awaited
fetch is embedded as a state transformer taking the value the flag has
at the moment the result lands. -/

structure HookState where
  cards : List Card
  loading : Bool
  error : Option String
deriving DecidableEq, Repr

/-- Completion of the initial `loadCards` (useCards.ts lines 16-38):
a thrown migration message or a fetch outcome lands; the `setCards`,
`setError` and `setLoading(false)` writes are each guarded by the
session-alive flag. -/
def applyLoadResult (mounted : Bool) (migThrown : Option String)
    (fetch : Except String (List Card)) (s : HookState) : HookState :=
  match migThrown with
  | some m =>
      let s1 := if mounted then { s with error := some m } else s
      if mounted then { s1 with loading := false } else s1
  | none =>
      match fetch with
      | Except.ok cs =>
          let s1 := if mounted then { s with cards := cs } else s
          if mounted then { s1 with loading := false } else s1
      | Except.error m =>
          let s1 := if mounted then { s with error := some m } else s
          if mounted then { s1 with loading := false } else s1

/-- The session-start run of `loadCards` while the session stays alive:
set loading, clear the error, await the Migration Guard and (if it did
not throw) the fetch, then apply the result. -/
def loadCards (migThrown : Option String)
    (fetch : Except String (List Card)) (s : HookState) : HookState :=
  applyLoadResult true migThrown fetch { s with loading := true, error := none }

/-- Completion of a notification-triggered reload (useCards.ts lines
53-63): a successful fetch is applied only while mounted; a fetch error
is only logged. -/
def applyRealtimeResult (mounted : Bool)
    (fetch : Except String (List Card)) (s : HookState) : HookState :=
  match fetch with
  | Except.ok cs => if mounted then { s with cards := cs } else s
  | Except.error _ => s

/-- Completion of the exposed `refetch` (useCards.ts lines 87-99): the
session-alive flag is not in scope there, so the writes land
unconditionally — the flag parameter records the session state at
completion time and is never read. -/
def applyRefetchResult (_mounted : Bool)
    (fetch : Except String (List Card)) (s : HookState) : HookState :=
  match fetch with
  | Except.ok cs => { s with cards := cs, loading := false }
  | Except.error m => { s with error := some m, loading := false }

/-- C1: with a healthy remote, running the Migration Guard twice in
sequence — first against an empty store with the marker unset, then with
the marker durably set — issues exactly one bulk insert and ends with the
marker set; a single run against a store already holding at least one
item issues zero inserts and only sets the marker. -/
theorem migration_idempotent :
    (∀ (seed : List Card) (assignRow : DatabaseCardInsert → DatabaseCard),
        (migrateHardcodedCards seed ⟨false, none⟩ assignRow
              (migrateHardcodedCards seed ⟨false, none⟩ assignRow
                ⟨false, [], 0⟩).1).1.insertCalls = 1 ∧
          (migrateHardcodedCards seed ⟨false, none⟩ assignRow
              ⟨false, [], 0⟩).1.marker = true ∧
          (migrateHardcodedCards seed ⟨false, none⟩ assignRow
              (migrateHardcodedCards seed ⟨false, none⟩ assignRow
                ⟨false, [], 0⟩).1).1 =
            (migrateHardcodedCards seed ⟨false, none⟩ assignRow
              ⟨false, [], 0⟩).1) ∧
      ∀ (seed : List Card) (assignRow : DatabaseCardInsert → DatabaseCard)
        (c : DatabaseCard) (cs : List DatabaseCard) (n : Nat),
        migrateHardcodedCards seed ⟨false, none⟩ assignRow
            ⟨false, c :: cs, n⟩ =
          (⟨true, c :: cs, n⟩, none) := by
  constructor
  · intro seed assignRow
    simp [migrateHardcodedCards, migrateInsert, hasMigrationRun,
      setMigrationComplete]
  · intro seed assignRow c cs n
    simp [migrateHardcodedCards, hasMigrationRun, setMigrationComplete]

/-- C10: when the existence probe reports an error, the code discards it
(only `data` is destructured) and treats the store as empty: even against
a store that already holds items, the guard bulk-inserts the entire seed
— appending a duplicate copy after the existing rows — and sets the
marker on insert success. -/
theorem migration_probe_error_duplicates :
    ∀ (seed : List Card) (assignRow : DatabaseCardInsert → DatabaseCard)
      (c : DatabaseCard) (cs : List DatabaseCard) (n : Nat),
      migrateHardcodedCards seed ⟨true, none⟩ assignRow ⟨false, c :: cs, n⟩ =
        (⟨true, (c :: cs) ++ (seed.map cardToDb).map assignRow, n + 1⟩,
          none) := by
  intro seed assignRow c cs n
  simp [migrateHardcodedCards, migrateInsert, hasMigrationRun,
    setMigrationComplete]

/-- C7 counterexample: a migration failure during session start lands in
the catch block of the effect, which does set the error field of the
Reactive Catalog Cache — the failure is surfaced, contrary to the claim. -/
theorem migration_failure_sets_error_field :
    (loadCards (some "Failed to migrate cards: insert rejected")
        (Except.ok []) ⟨[], false, none⟩).error =
      some "Failed to migrate cards: insert rejected" := by
  decide

/-- C7 amended: when the bulk insert fails, the Migration Guard leaves
the durable marker unset (so the next session start retries) and
rethrows; the session-start loader catches the rethrown failure, skips
applying any snapshot, clears loading, and stores the message in the
error field of the cache — the failure is logged and surfaced there,
not swallowed. -/
theorem migration_failure_marker_unset :
    (∀ (seed : List Card) (assignRow : DatabaseCardInsert → DatabaseCard)
        (n : Nat) (m : String),
        migrateHardcodedCards seed ⟨false, some m⟩ assignRow ⟨false, [], n⟩ =
          (⟨false, [], n + 1⟩, some ("Failed to migrate cards: " ++ m))) ∧
      ∀ (m : String) (fetch : Except String (List Card)) (s : HookState),
        loadCards (some m) fetch s =
          { cards := s.cards, loading := false, error := some m } := by
  constructor
  · intro seed assignRow n m
    simp [migrateHardcodedCards, migrateInsert, hasMigrationRun]
  · intro m fetch s
    simp [loadCards, applyLoadResult]

/-- A concrete card for the teardown counterexample. -/
def sampleCard : Card := dbToCard sampleDb

/-- C8 counterexample: a `refetch` whose fetch completes after session
teardown (session-alive flag already false) still writes the snapshot
and the loading flag — the state changes, so not every post-teardown
write is discarded. -/
theorem refetch_writes_after_teardown :
    applyRefetchResult false (Except.ok [sampleCard])
        ⟨[], true, none⟩ =
        ⟨[sampleCard], false, none⟩ ∧
      (⟨[sampleCard], false, none⟩ : HookState) ≠ ⟨[], true, none⟩ := by
  constructor
  · decide
  · decide

/-- C8 amended: after teardown the initial load and every
notification-triggered reload discard their results entirely (snapshot,
error and loading writes are all guarded by the session-alive flag), but
the exposed `refetch` performs its writes unconditionally — its snapshot
or error and its loading write land even when the flag is down. -/
theorem teardown_guard_except_refetch :
    (∀ (migThrown : Option String) (fetch : Except String (List Card))
        (s : HookState), applyLoadResult false migThrown fetch s = s) ∧
      (∀ (fetch : Except String (List Card)) (s : HookState),
        applyRealtimeResult false fetch s = s) ∧
      (∀ (s : HookState) (cs : List Card),
        applyRefetchResult false (Except.ok cs) s =
          { s with cards := cs, loading := false }) ∧
      ∀ (s : HookState) (m : String),
        applyRefetchResult false (Except.error m) s =
          { s with error := some m, loading := false } := by
  refine ⟨fun migThrown fetch s => ?_, fun fetch s => ?_, fun s cs => rfl,
    fun s m => rfl⟩
  · cases migThrown with
    | some m => simp [applyLoadResult]
    | none => cases fetch <;> simp [applyLoadResult]
  · cases fetch <;> simp [applyRealtimeResult]

/-! ## Derived tag list (useCards.ts lines 74-80)

`allTags` folds the tags of every card into a JavaScript `Set` (which keeps
first-insertion order and drops duplicates) and sorts the resulting
array with the default lexicographic comparison.  It is recomputed from
`cards` alone: the filter hook receives the collection separately, so no
filter input reaches the tag list. -/

/-- Adding one element to the insertion-ordered set: a `Set.add` keeps
the set unchanged on a duplicate and appends otherwise. -/
def jsSetInsert (seen : List String) (t : String) : List String :=
  if t ∈ seen then seen else seen ++ [t]

/-- The double `forEach` of useCards.ts filling the tag set. -/
def collectTags (cards : List Card) : List String :=
  cards.foldl (fun acc c => c.tags.foldl jsSetInsert acc) []

/-- Definition `allTags` from useCards.ts: `Array.from(tagSet).sort()`. -/
def allTags (cards : List Card) : List String :=
  List.insertionSort (fun a b : String => a ≤ b) (collectTags cards)

/-- Modelled from the spec: the Filter/Sort Specification (the filtering
filtering hook has its source file outside the pack; only the shape is
needed,
because the tag list never reads it). -/
structure FilterState where
  classification : String
  difficulty : String
  searchText : String
  selectedTags : List String
  sortBy : String
  sortDirection : String
deriving DecidableEq, Repr

/-- The tag half of the derived view the App consumes: `useCards`
computes `allTags` from the full collection and hands the same
collection to the filter hook, so the tag list takes no filter input. -/
def deriveViewTags (cards : List Card) (_spec : FilterState) : List String :=
  allTags cards

theorem mem_jsSetInsert (acc : List String) (a t : String) :
    t ∈ jsSetInsert acc a ↔ t ∈ acc ∨ t = a := by
  unfold jsSetInsert
  split
  · rename_i h
    exact ⟨Or.inl, fun x => x.elim id (fun ht => ht ▸ h)⟩
  · simp

theorem mem_foldl_jsSetInsert (ts acc : List String) (t : String) :
    t ∈ ts.foldl jsSetInsert acc ↔ t ∈ acc ∨ t ∈ ts := by
  induction ts generalizing acc with
  | nil => simp
  | cons a ts ih =>
    rw [List.foldl_cons, ih, mem_jsSetInsert]
    simp [or_assoc]

theorem nodup_jsSetInsert (acc : List String) (a : String)
    (h : acc.Nodup) : (jsSetInsert acc a).Nodup := by
  unfold jsSetInsert
  split
  · exact h
  · rename_i hna
    refine List.Nodup.append h (List.nodup_singleton a) ?_
    intro x hx hxa
    rw [List.mem_singleton] at hxa
    exact hna (hxa ▸ hx)

theorem nodup_foldl_jsSetInsert (ts acc : List String) (h : acc.Nodup) :
    (ts.foldl jsSetInsert acc).Nodup := by
  induction ts generalizing acc with
  | nil => exact h
  | cons a ts ih => exact ih _ (nodup_jsSetInsert _ _ h)

theorem mem_collectTags (cards : List Card) (t : String) :
    t ∈ collectTags cards ↔ ∃ c ∈ cards, t ∈ c.tags := by
  unfold collectTags
  suffices h : ∀ acc, t ∈ cards.foldl (fun acc c => c.tags.foldl
        jsSetInsert acc) acc ↔ t ∈ acc ∨ ∃ c ∈ cards, t ∈ c.tags by
    simpa using h []
  induction cards with
  | nil => simp
  | cons c cs ih =>
    intro acc
    rw [List.foldl_cons, ih, mem_foldl_jsSetInsert]
    simp [or_assoc]

theorem nodup_collectTags (cards : List Card) : (collectTags cards).Nodup := by
  unfold collectTags
  suffices h : ∀ acc : List String, acc.Nodup → (cards.foldl (fun acc c =>
      c.tags.foldl jsSetInsert acc) acc).Nodup from h [] List.nodup_nil
  induction cards with
  | nil => exact fun _ h => h
  | cons c cs ih => exact fun acc h => ih _ (nodup_foldl_jsSetInsert _ _ h)

/-- C4: for every collection, the derived `allTags` list is sorted
lexicographically ascending, has no duplicates, contains exactly the
tags occurring in some card of the full collection, and — being computed
from the full collection only — is identical under every filter
specification. -/
theorem allTags_distinct_sorted_filter_independent :
    ∀ cards : List Card,
      List.Sorted (fun a b : String => a ≤ b) (allTags cards) ∧
        (allTags cards).Nodup ∧
        (∀ t, t ∈ allTags cards ↔ ∃ c ∈ cards, t ∈ c.tags) ∧
        ∀ spec other : FilterState,
          deriveViewTags cards spec = deriveViewTags cards other := by
  intro cards
  refine ⟨List.sorted_insertionSort _ _, ?_, fun t => ?_, fun _ _ => rfl⟩
  · exact (List.perm_insertionSort _ _).nodup_iff.mpr (nodup_collectTags cards)
  · rw [allTags, List.mem_insertionSort, mem_collectTags]

/-! ## Create/edit form payload (CardFormModal.tsx)

`handleSubmit` parses the text fields and assembles the outbound
`cardData` payload; the complexity metadata shape is selected by the
classification. -/

/-- The state cells of the form; the difficulty select uses the empty string
for None, tags are one comma-separated text field, use cases and related
problems hold one entry per line. -/
structure FormData where
  title : String
  classification : String
  difficulty : String
  language : String
  code : String
  explanation : String
  timeComplexity : String
  spaceComplexity : String
  methods : List Method
  tags : String
  useCases : String
  relatedProblems : String
deriving DecidableEq, Repr

/-- The split / trim / drop-empties parsing of `handleSubmit` applied to
the tags, use-cases and related-problems text fields. -/
def parseEntries (sep : Char) (s : String) : List String :=
  ((s.split (fun ch => ch = sep)).map String.trim).filter
    (fun e => 0 < e.length)

/-- The payload `handleSubmit` hands to `createCard` / `updateCard`: a
card without its identifier and dateAdded. -/
structure CardPayload where
  title : String
  classification : String
  difficulty : Option String
  language : Option String
  code : String
  explanation : String
  timeComplexity : Option String
  spaceComplexity : Option String
  methods : Option (List Method)
  tags : List String
  useCases : Option (List String)
  relatedProblems : Option (List String)
deriving DecidableEq, Repr

/-- The `cardData` construction of `handleSubmit` (CardFormModal.tsx
lines 70-83). -/
def cardData (f : FormData) : CardPayload :=
  { title := f.title.trim
    classification := f.classification
    difficulty := jsStrOrNone (some f.difficulty)
    language := some f.language
    code := f.code.trim
    explanation := f.explanation.trim
    timeComplexity :=
      if f.classification = "data-structures" then none
      else jsStrOrNone (some f.timeComplexity.trim)
    spaceComplexity := jsStrOrNone (some f.spaceComplexity.trim)
    methods :=
      if f.classification = "data-structures" ∧ 0 < f.methods.length then
        some f.methods
      else none
    tags := parseEntries ',' f.tags
    useCases :=
      if 0 < (parseEntries '\n' f.useCases).length then
        some (parseEntries '\n' f.useCases)
      else none
    relatedProblems :=
      if 0 < (parseEntries '\n' f.relatedProblems).length then
        some (parseEntries '\n' f.relatedProblems)
      else none }

/-- C9: every payload the form produces satisfies the mutual-exclusivity
invariant — a data-structures classification forces the single-pair
time-complexity field to be absent, and any other classification forces
the methods list to be absent. -/
theorem form_complexity_mutually_exclusive :
    ∀ f : FormData,
      ((cardData f).classification = "data-structures" →
          (cardData f).timeComplexity = none) ∧
        ((cardData f).classification ≠ "data-structures" →
          (cardData f).methods = none) := by
  intro f
  constructor
  · intro h
    replace h : f.classification = "data-structures" := h
    simp [cardData, h]
  · intro h
    replace h : ¬f.classification = "data-structures" := h
    simp [cardData, h]

/-- A concrete data-structures form submission. -/
def hashMapForm : FormData :=
  { title := "Hash Map", classification := "data-structures",
    difficulty := "easy", language := "python", code := "d = dict()",
    explanation := "buckets", timeComplexity := "O(1)",
    spaceComplexity := "O(n)",
    methods := [{ name := "get", timeComplexity := "O(1)" }],
    tags := "hash, map", useCases := "", relatedProblems := "" }

/-- A concrete non-data-structures form submission. -/
def quickSortForm : FormData :=
  { title := "Quick Sort", classification := "sorts",
    difficulty := "medium", language := "python", code := "def qs(): pass",
    explanation := "partition", timeComplexity := "O(n log n)",
    spaceComplexity := "O(log n)",
    methods := [{ name := "leftover", timeComplexity := "O(1)" }],
    tags := "array, sort", useCases := "", relatedProblems := "" }

/-- Witness for C9 at the two concrete submissions. -/
theorem form_complexity_mutually_exclusive_witness :
    (cardData hashMapForm).timeComplexity = none ∧
      (cardData quickSortForm).methods = none :=
  ⟨(form_complexity_mutually_exclusive hashMapForm).1 (by decide),
    (form_complexity_mutually_exclusive quickSortForm).2 (by decide)⟩

end Toolbox
